import Mathlib

/-
Verification of the two serverless handlers of the gist-updater-script
repository against its specification.

The embedding models:
  - a JSON value type (request/response bodies are JSON values);
  - JS truthiness, since the source uses falsy checks on the payload,
    on the contents field and on the environment variable;
  - the two fetch helpers of src/api/data.js (fetchText, fetchJson),
    with the network modelled as an oracle giving each outbound call
    an outcome (a connection-level throw, or an HTTP response with an
    ok flag, status text and body);
  - the aggregator handler of src/api/data.js (dataHandler below);
  - the relay handler of the unnamed Gemini-proxy source file
    (relayHandler below).  The relay returns, besides the response,
    a Bool recording whether the outbound upstream call was made.
-/

/-- JSON values, as produced by parsing request and response bodies. -/
inductive Json where
  | null : Json
  | bool : Bool → Json
  | num : Int → Json
  | str : String → Json
  | arr : List Json → Json
  | obj : List (String × Json) → Json

/-- JS truthiness of a JSON value: null, false, 0 and the empty string
are falsy; every array and object is truthy. -/
def truthy : Json → Bool
  | Json.null => false
  | Json.bool b => b
  | Json.num n => if n = 0 then false else true
  | Json.str s => if s = "" then false else true
  | Json.arr _ => true
  | Json.obj _ => true

/-- JS truthiness of a possibly-undefined value (none is undefined). -/
def truthyOpt : Option Json → Bool
  | none => false
  | some j => truthy j

/-- JS property lookup on a JSON value: a field of an object, and
undefined (none) on every non-object value. -/
def getField (j : Json) (k : String) : Option Json :=
  match j with
  | Json.obj fields => (fields.find? (fun p => p.1 = k)).map Prod.snd
  | _ => none

/-- Whether one string occurs inside another as a contiguous substring. -/
def strContains (hay needle : String) : Bool :=
  (List.range (hay.data.length + 1)).any
    (fun i => needle.data.isPrefixOf (hay.data.drop i))

/- ----------------------------------------------------------------
   Secure Relay (the unnamed Gemini-proxy source file)
   ---------------------------------------------------------------- -/

/-- Outcome of the single outbound call the relay makes: either the
fetch itself throws (connection-level failure), or an HTTP response
arrives, carrying the ok flag, the status code, the body as text
(what text() returns) and the body as JSON when it parses
(what json() returns; none when json() would throw). -/
inductive GeminiOutcome where
  | netErr : String → GeminiOutcome
  | resp : Bool → Nat → String → Option Json → GeminiOutcome

/-- A response the relay sends: status, headers and a JSON body.  The
relay source never sets a header, so the headers are always empty. -/
structure RelayResponse where
  status : Nat
  headers : List (String × String)
  body : Json

/-- JS truthiness of the environment variable read by the relay:
falsy when the variable is unset or the empty string. -/
def envKeyTruthy : Option String → Bool
  | none => false
  | some s => if s = "" then false else true

/-- The upstream URL the relay builds, embedding the credential as a
query parameter. -/
def relayApiUrl (apiKey : String) : String :=
  "https://generativelanguage.googleapis.com/v1beta/models/gemini-2.5-flash-preview-05-20:generateContent?key="
    ++ apiKey

/-- The payload check the relay performs:
not incomingPayload, or not incomingPayload.contents. -/
def relayBodyValid (body : Option Json) : Bool :=
  truthyOpt body && truthyOpt (body.bind (fun b => getField b "contents"))

/-- The relay handler.  Mirrors the unnamed source file: method check,
payload check, credential check, then the outbound call, whose outcome
is the gemini argument.  The Bool of the result records whether the
outbound call was made. -/
def relayHandler (geminiApiKey : Option String) (method : String)
    (body : Option Json) (gemini : GeminiOutcome) : RelayResponse × Bool :=
  if method ≠ "POST" then
    ({ status := 405, headers := [],
       body := Json.obj [("error", Json.str "Method Not Allowed")] }, false)
  else if !truthyOpt body
      || !truthyOpt (body.bind (fun b => getField b "contents")) then
    ({ status := 400, headers := [],
       body := Json.obj [("error", Json.str "Invalid request body")] }, false)
  else if !envKeyTruthy geminiApiKey then
    ({ status := 500, headers := [],
       body := Json.obj [("error", Json.str "API key not configured on the server.")] }, false)
  else
    match gemini with
    | GeminiOutcome.netErr _ =>
        ({ status := 500, headers := [],
           body := Json.obj [("error", Json.str "Failed to fetch from Gemini API.")] }, true)
    | GeminiOutcome.resp ok status bodyText bodyJson =>
        if !ok then
          ({ status := status, headers := [],
             body := Json.obj [("error", Json.str ("Gemini API error: " ++ bodyText))] }, true)
        else
          match bodyJson with
          | some data => ({ status := 200, headers := [], body := data }, true)
          | none =>
              ({ status := 500, headers := [],
                 body := Json.obj [("error", Json.str "Failed to fetch from Gemini API.")] }, true)

/- ----------------------------------------------------------------
   Aggregator (src/api/data.js)
   ---------------------------------------------------------------- -/

/-- The REST API base URL of src/api/data.js. -/
def API_BASE : String := "https://api.koios.rest/api/v1"

/-- The fixed CSV URL of src/api/data.js. -/
def SPO_DATA_URL : String :=
  "https://gist.githubusercontent.com/Thomas-nada/7b742a3ca9e42281ae831b3da689c0b5/raw/fcf93ff7fae331a329f2ed69267bdf44e29f021e/governance-report.csv"

/-- The fixed directory-JSON URL of src/api/data.js. -/
def DREP_DATA_URL : String :=
  "https://gist.githubusercontent.com/Thomas-nada/28f6ba461017efcb5ab942964776923e/raw/509ad05637b91d228b2bf0b6e26cd38d9641dd4d/drep_directory.json"

/-- Outcome of one outbound call whose body is consumed as text:
either the fetch throws, or an HTTP response with ok flag, status
text and text body arrives. -/
inductive TextOutcome where
  | netErr : String → TextOutcome
  | resp : Bool → String → String → TextOutcome

/-- Outcome of one outbound call whose body is consumed as JSON:
either the fetch throws, or an HTTP response with ok flag, status
text and parsed JSON body arrives. -/
inductive JsonOutcome where
  | netErr : String → JsonOutcome
  | resp : Bool → String → Json → JsonOutcome

/-- fetchText of src/api/data.js: on a thrown fetch the error
propagates; on a non-ok response it throws the message
Failed to fetch url colon statusText; on an ok response it resolves
with the raw text body. -/
def fetchText (url : String) : TextOutcome → Except String String
  | TextOutcome.netErr m => Except.error m
  | TextOutcome.resp ok statusText body =>
      if ok then Except.ok body
      else Except.error ("Failed to fetch " ++ url ++ ": " ++ statusText)

/-- fetchJson of src/api/data.js: same classification as fetchText but
resolving with the parsed JSON body. -/
def fetchJson (url : String) : JsonOutcome → Except String Json
  | JsonOutcome.netErr m => Except.error m
  | JsonOutcome.resp ok statusText body =>
      if ok then Except.ok body
      else Except.error ("Failed to fetch " ++ url ++ ": " ++ statusText)

/-- The outcomes the network gives to the three concurrent upstream
calls of one aggregator invocation. -/
structure AggUpstreams where
  spo : TextOutcome
  drep : JsonOutcome
  props : JsonOutcome

/-- A response the aggregator sends: headers, status and an optional
JSON body (none models end() with no body). -/
structure AggResponse where
  headers : List (String × String)
  status : Nat
  body : Option Json

/-- The three CORS headers src/api/data.js sets before anything else. -/
def corsHeaders : List (String × String) :=
  [("Access-Control-Allow-Origin", "*"),
   ("Access-Control-Allow-Methods", "GET, OPTIONS"),
   ("Access-Control-Allow-Headers", "Content-Type")]

/-- Promise.all over the three settled helper results: all three
values, or the failure message of the first rejected one in list
order (with a single rejection this is exactly that rejection). -/
def promiseAll3 (a : Except String String) (b c : Except String Json) :
    Except String (String × Json × Json) :=
  match a with
  | Except.error m => Except.error m
  | Except.ok x =>
      match b with
      | Except.error m => Except.error m
      | Except.ok y =>
          match c with
          | Except.error m => Except.error m
          | Except.ok z => Except.ok (x, y, z)

/-- The aggregator handler of src/api/data.js: CORS headers always,
OPTIONS answered with 200 and no body, otherwise the three fetches
joined; on success a 200 with the three fields, on any rejection a
500 with the generic error and the failure message as details. -/
def dataHandler (method : String) (ups : AggUpstreams) : AggResponse :=
  if method = "OPTIONS" then
    { headers := corsHeaders, status := 200, body := none }
  else
    match promiseAll3 (fetchText SPO_DATA_URL ups.spo)
        (fetchJson DREP_DATA_URL ups.drep)
        (fetchJson (API_BASE ++ "/proposal_list") ups.props) with
    | Except.ok (spoDataCsv, drepData, proposalList) =>
        { headers := corsHeaders, status := 200,
          body := some (Json.obj
            [("spoDataCsv", Json.str spoDataCsv),
             ("drepData", drepData),
             ("proposalList", proposalList)]) }
    | Except.error m =>
        { headers := corsHeaders, status := 500,
          body := some (Json.obj
            [("error", Json.str "Failed to fetch initial data."),
             ("details", Json.str m)]) }

/- ----------------------------------------------------------------
   Secure Relay theorems
   ---------------------------------------------------------------- -/

/-- C6: for every invocation whose inbound method is not POST, the
relay terminates with status 405 and the body with the single field
error holding Method Not Allowed, and the upstream is never called. -/
theorem relay_method_check (geminiApiKey : Option String) (method : String)
    (body : Option Json) (gemini : GeminiOutcome) (h : method ≠ "POST") :
    relayHandler geminiApiKey method body gemini =
      ({ status := 405, headers := [],
         body := Json.obj [("error", Json.str "Method Not Allowed")] }, false) := by
  simp [relayHandler, h]

/-- Witness for relay_method_check at a concrete GET invocation. -/
theorem relay_method_check_witness :
    relayHandler (some "k") "GET" none (GeminiOutcome.netErr "boom") =
      ({ status := 405, headers := [],
         body := Json.obj [("error", Json.str "Method Not Allowed")] }, false) :=
  relay_method_check (some "k") "GET" none (GeminiOutcome.netErr "boom") (by decide)

/-- C7: for every POST invocation with a valid body where the
environment variable holding the credential is absent, the relay
terminates with status 500 and the body with the single field error
holding API key not configured on the server., and the upstream is
never called. -/
theorem relay_missing_key (body : Option Json) (gemini : GeminiOutcome)
    (hbody : relayBodyValid body = true) :
    relayHandler none "POST" body gemini =
      ({ status := 500, headers := [],
         body := Json.obj [("error", Json.str "API key not configured on the server.")] },
       false) := by
  simp only [relayBodyValid, Bool.and_eq_true] at hbody
  obtain ⟨h1, h2⟩ := hbody
  simp [relayHandler, h1, h2, envKeyTruthy]

/-- Witness for relay_missing_key at a concrete valid body. -/
theorem relay_missing_key_witness :
    relayHandler none "POST" (some (Json.obj [("contents", Json.str "x")]))
        (GeminiOutcome.netErr "boom") =
      ({ status := 500, headers := [],
         body := Json.obj [("error", Json.str "API key not configured on the server.")] },
       false) :=
  relay_missing_key (some (Json.obj [("contents", Json.str "x")]))
    (GeminiOutcome.netErr "boom") rfl

/-- C8: for every invocation reaching the forward step in which the
outbound call itself throws, the relay responds with status 500 and
exactly the generic body with the single field error holding Failed
to fetch from Gemini API., whatever the internal failure message
was. -/
theorem relay_network_failure (geminiApiKey : Option String) (body : Option Json)
    (msg : String) (hkey : envKeyTruthy geminiApiKey = true)
    (hbody : relayBodyValid body = true) :
    relayHandler geminiApiKey "POST" body (GeminiOutcome.netErr msg) =
      ({ status := 500, headers := [],
         body := Json.obj [("error", Json.str "Failed to fetch from Gemini API.")] },
       true) := by
  simp only [relayBodyValid, Bool.and_eq_true] at hbody
  obtain ⟨h1, h2⟩ := hbody
  simp [relayHandler, h1, h2, hkey]

/-- Witness for relay_network_failure at a concrete invocation. -/
theorem relay_network_failure_witness :
    relayHandler (some "k") "POST" (some (Json.obj [("contents", Json.str "x")]))
        (GeminiOutcome.netErr "connection refused") =
      ({ status := 500, headers := [],
         body := Json.obj [("error", Json.str "Failed to fetch from Gemini API.")] },
       true) :=
  relay_network_failure (some "k") (some (Json.obj [("contents", Json.str "x")]))
    "connection refused" rfl rfl

/-- C4: for every invocation reaching the forward step, a non-success
upstream response is forwarded with the same status code and the body
with the single field error holding Gemini API error: followed by the
upstream error text, and a success upstream response whose body parses
as JSON is returned verbatim with status 200. -/
theorem relay_upstream_outcome (geminiApiKey : Option String) (body : Option Json)
    (status : Nat) (text : String) (bodyJson : Option Json)
    (hkey : envKeyTruthy geminiApiKey = true)
    (hbody : relayBodyValid body = true) :
    (relayHandler geminiApiKey "POST" body
        (GeminiOutcome.resp false status text bodyJson) =
      ({ status := status, headers := [],
         body := Json.obj [("error", Json.str ("Gemini API error: " ++ text))] }, true))
    ∧ (∀ j, relayHandler geminiApiKey "POST" body
        (GeminiOutcome.resp true status text (some j)) =
      ({ status := 200, headers := [], body := j }, true)) := by
  simp only [relayBodyValid, Bool.and_eq_true] at hbody
  obtain ⟨h1, h2⟩ := hbody
  constructor
  · simp [relayHandler, h1, h2, hkey]
  · intro j
    simp [relayHandler, h1, h2, hkey]

/-- Witness for relay_upstream_outcome: a 503 upstream error is
forwarded, and a success body is returned verbatim. -/
theorem relay_upstream_outcome_witness :
    (relayHandler (some "k") "POST" (some (Json.obj [("contents", Json.str "x")]))
        (GeminiOutcome.resp false 503 "quota exceeded" none) =
      ({ status := 503, headers := [],
         body := Json.obj [("error", Json.str ("Gemini API error: " ++ "quota exceeded"))] },
       true))
    ∧ (relayHandler (some "k") "POST" (some (Json.obj [("contents", Json.str "x")]))
        (GeminiOutcome.resp true 503 "quota exceeded" (some Json.null)) =
      ({ status := 200, headers := [], body := Json.null }, true)) :=
  ⟨(relay_upstream_outcome (some "k") (some (Json.obj [("contents", Json.str "x")]))
      503 "quota exceeded" none rfl rfl).1,
   (relay_upstream_outcome (some "k") (some (Json.obj [("contents", Json.str "x")]))
      503 "quota exceeded" none rfl rfl).2 Json.null⟩

/-- C5 counterexample: a POST body whose contents field is present but
holds the empty string (a falsy value) is rejected with status 400,
although the claim states that a body that has a contents field
proceeds past validation. -/
theorem relay_validation_counterexample :
    getField (Json.obj [("contents", Json.str "")]) "contents" = some (Json.str "") ∧
    relayHandler (some "k") "POST" (some (Json.obj [("contents", Json.str "")]))
        (GeminiOutcome.resp true 200 "" (some Json.null)) =
      ({ status := 400, headers := [],
         body := Json.obj [("error", Json.str "Invalid request body")] }, false) :=
  ⟨rfl, rfl⟩

/-- C5 amended: for every POST invocation, the relay responds with
status 400, the body with the single field error holding Invalid
request body and no upstream call, exactly when the inbound body is
absent or falsy, or its contents field is absent or falsy. -/
theorem relay_validation_iff (geminiApiKey : Option String) (body : Option Json)
    (gemini : GeminiOutcome) :
    (relayHandler geminiApiKey "POST" body gemini =
        ({ status := 400, headers := [],
           body := Json.obj [("error", Json.str "Invalid request body")] }, false))
    ↔ relayBodyValid body = false := by
  cases hval : relayBodyValid body with
  | false =>
      refine iff_of_true ?_ rfl
      simp only [relayBodyValid, Bool.and_eq_false_iff] at hval
      rcases hval with h | h <;> simp [relayHandler, h]
  | true =>
      refine iff_of_false ?_ (by decide)
      simp only [relayBodyValid, Bool.and_eq_true] at hval
      obtain ⟨h1, h2⟩ := hval
      intro hcontra
      cases hk : envKeyTruthy geminiApiKey with
      | false => simp [relayHandler, h1, h2, hk] at hcontra
      | true =>
          cases gemini with
          | netErr m => simp [relayHandler, h1, h2, hk] at hcontra
          | resp ok status text bodyJson =>
              cases ok with
              | false => simp [relayHandler, h1, h2, hk] at hcontra
              | true =>
                  cases bodyJson with
                  | none => simp [relayHandler, h1, h2, hk] at hcontra
                  | some j => simp [relayHandler, h1, h2, hk] at hcontra

/-- Witness for relay_validation_iff at an absent body. -/
theorem relay_validation_iff_witness :
    relayHandler (some "k") "POST" none (GeminiOutcome.netErr "boom") =
      ({ status := 400, headers := [],
         body := Json.obj [("error", Json.str "Invalid request body")] }, false) :=
  (relay_validation_iff (some "k") none (GeminiOutcome.netErr "boom")).mpr rfl

/-- C3 counterexample: when the upstream echoes the configured
credential in its own error body, the relay forwards it: the client
visible response body carries the credential as a substring, so the
claim that no response ever contains the credential fails. -/
theorem relay_credential_leak :
    (relayHandler (some "SECRETKEY12345") "POST"
        (some (Json.obj [("contents", Json.str "hello")]))
        (GeminiOutcome.resp false 403 "API key SECRETKEY12345 is expired" none)).1.body
      = Json.obj [("error",
          Json.str "Gemini API error: API key SECRETKEY12345 is expired")] ∧
    strContains "Gemini API error: API key SECRETKEY12345 is expired" "SECRETKEY12345"
      = true := by
  refine ⟨rfl, by decide⟩

/-- C3 amended: the relay response (status, headers and body alike) is
independent of which non-empty credential is configured: two runs with
different configured credentials but the same request and the same
upstream outcome produce identical responses.  Hence on the paths whose
bodies are fixed constants (405, 400, 500 configuration, 500 network
failure) the credential never appears, and it can reach the client only
inside content the upstream itself produced. -/
theorem relay_key_noninterference (k1 k2 : String) (h1 : k1 ≠ "") (h2 : k2 ≠ "")
    (method : String) (body : Option Json) (gemini : GeminiOutcome) :
    relayHandler (some k1) method body gemini =
      relayHandler (some k2) method body gemini := by
  simp [relayHandler, envKeyTruthy, h1, h2]

/-- Witness for relay_key_noninterference at two concrete keys. -/
theorem relay_key_noninterference_witness :
    relayHandler (some "key-one") "POST" (some (Json.obj [("contents", Json.str "x")]))
        (GeminiOutcome.netErr "boom") =
      relayHandler (some "key-two") "POST" (some (Json.obj [("contents", Json.str "x")]))
        (GeminiOutcome.netErr "boom") :=
  relay_key_noninterference "key-one" "key-two" (by decide) (by decide) "POST"
    (some (Json.obj [("contents", Json.str "x")])) (GeminiOutcome.netErr "boom")

/- ----------------------------------------------------------------
   Aggregator theorems
   ---------------------------------------------------------------- -/

/-- C9: every aggregator response, on every response path, carries the
three permissive CORS headers, and an OPTIONS request receives status
200 with an empty body. -/
theorem agg_cors_and_options (method : String) (ups : AggUpstreams) :
    (dataHandler method ups).headers =
      [("Access-Control-Allow-Origin", "*"),
       ("Access-Control-Allow-Methods", "GET, OPTIONS"),
       ("Access-Control-Allow-Headers", "Content-Type")] ∧
    (method = "OPTIONS" →
      (dataHandler method ups).status = 200 ∧ (dataHandler method ups).body = none) := by
  constructor
  · by_cases h : method = "OPTIONS"
    · simp [dataHandler, h, corsHeaders]
    · simp only [dataHandler, if_neg h]
      rcases promiseAll3 (fetchText SPO_DATA_URL ups.spo)
          (fetchJson DREP_DATA_URL ups.drep)
          (fetchJson (API_BASE ++ "/proposal_list") ups.props) with m | ⟨x, y, z⟩ <;>
        simp [corsHeaders]
  · intro h
    simp [dataHandler, h]

/-- Witness for agg_cors_and_options at an OPTIONS invocation. -/
theorem agg_cors_and_options_witness :
    (dataHandler "OPTIONS"
        ⟨TextOutcome.netErr "a", JsonOutcome.netErr "b", JsonOutcome.netErr "c"⟩).status = 200 ∧
    (dataHandler "OPTIONS"
        ⟨TextOutcome.netErr "a", JsonOutcome.netErr "b", JsonOutcome.netErr "c"⟩).body = none :=
  (agg_cors_and_options "OPTIONS"
    ⟨TextOutcome.netErr "a", JsonOutcome.netErr "b", JsonOutcome.netErr "c"⟩).2 rfl

/-- C1: on every non-OPTIONS invocation in which at least one of the
three upstream calls fails, the aggregator responds with status 500
and a body holding exactly the fields error (the generic message) and
details (a failure message), and the body has no spoDataCsv, drepData
or proposalList field: no partial payload is returned. -/
theorem agg_failure_all_or_nothing (method : String) (ups : AggUpstreams)
    (hm : method ≠ "OPTIONS")
    (hfail : (∃ e, fetchText SPO_DATA_URL ups.spo = Except.error e) ∨
             (∃ e, fetchJson DREP_DATA_URL ups.drep = Except.error e) ∨
             (∃ e, fetchJson (API_BASE ++ "/proposal_list") ups.props = Except.error e)) :
    (dataHandler method ups).status = 500 ∧
    (∃ d, (dataHandler method ups).body =
        some (Json.obj [("error", Json.str "Failed to fetch initial data."),
                        ("details", Json.str d)])) ∧
    (∀ j, (dataHandler method ups).body = some j →
        getField j "spoDataCsv" = none ∧ getField j "drepData" = none ∧
        getField j "proposalList" = none) := by
  obtain ⟨d, hd⟩ : ∃ d, promiseAll3 (fetchText SPO_DATA_URL ups.spo)
      (fetchJson DREP_DATA_URL ups.drep)
      (fetchJson (API_BASE ++ "/proposal_list") ups.props) = Except.error d := by
    rcases ha : fetchText SPO_DATA_URL ups.spo with m | x
    · exact ⟨m, by simp [promiseAll3, ha]⟩
    · rcases hb : fetchJson DREP_DATA_URL ups.drep with m | y
      · exact ⟨m, by simp [promiseAll3, ha, hb]⟩
      · rcases hc : fetchJson (API_BASE ++ "/proposal_list") ups.props with m | z
        · exact ⟨m, by simp [promiseAll3, ha, hb, hc]⟩
        · rcases hfail with ⟨e, he⟩ | ⟨e, he⟩ | ⟨e, he⟩ <;>
            simp [ha, hb, hc] at he
  refine ⟨by simp [dataHandler, if_neg hm, hd], ⟨d, by simp [dataHandler, if_neg hm, hd]⟩, ?_⟩
  intro j hj
  simp only [dataHandler, if_neg hm, hd] at hj
  obtain rfl : Json.obj [("error", Json.str "Failed to fetch initial data."),
      ("details", Json.str d)] = j := Option.some.inj hj
  refine ⟨?_, ?_, ?_⟩ <;> simp [getField, List.find?]

/-- Witness for agg_failure_all_or_nothing at a failing CSV upstream. -/
theorem agg_failure_all_or_nothing_witness :
    (dataHandler "GET"
        ⟨TextOutcome.resp false "Not Found" "", JsonOutcome.resp true "OK" Json.null,
         JsonOutcome.resp true "OK" Json.null⟩).status = 500 :=
  (agg_failure_all_or_nothing "GET"
    ⟨TextOutcome.resp false "Not Found" "", JsonOutcome.resp true "OK" Json.null,
     JsonOutcome.resp true "OK" Json.null⟩
    (by decide) (Or.inl ⟨"Failed to fetch " ++ SPO_DATA_URL ++ ": " ++ "Not Found", rfl⟩)).1

/-- C2: on every non-OPTIONS invocation, if all three upstream calls
succeed the aggregator responds with status 200 and a body holding
exactly the three fields spoDataCsv, drepData and proposalList, each
carrying the corresponding upstream value untransformed; and
conversely, a status 200 response only arises that way: all three
calls succeeded and the body is exactly that three-field payload. -/
theorem agg_success (method : String) (ups : AggUpstreams)
    (hm : method ≠ "OPTIONS") :
    (∀ x y z, fetchText SPO_DATA_URL ups.spo = Except.ok x →
        fetchJson DREP_DATA_URL ups.drep = Except.ok y →
        fetchJson (API_BASE ++ "/proposal_list") ups.props = Except.ok z →
        dataHandler method ups =
          { headers := corsHeaders, status := 200,
            body := some (Json.obj
              [("spoDataCsv", Json.str x),
               ("drepData", y),
               ("proposalList", z)]) })
    ∧ ((dataHandler method ups).status = 200 →
        ∃ x y z, fetchText SPO_DATA_URL ups.spo = Except.ok x ∧
          fetchJson DREP_DATA_URL ups.drep = Except.ok y ∧
          fetchJson (API_BASE ++ "/proposal_list") ups.props = Except.ok z ∧
          dataHandler method ups =
            { headers := corsHeaders, status := 200,
              body := some (Json.obj
                [("spoDataCsv", Json.str x),
                 ("drepData", y),
                 ("proposalList", z)]) }) := by
  constructor
  · intro x y z hx hy hz
    simp only [dataHandler, if_neg hm, hx, hy, hz]
    simp [promiseAll3]
  · intro h
    rcases ha : fetchText SPO_DATA_URL ups.spo with m | x
    · simp [dataHandler, if_neg hm, promiseAll3, ha] at h
    · rcases hb : fetchJson DREP_DATA_URL ups.drep with m | y
      · simp [dataHandler, if_neg hm, promiseAll3, ha, hb] at h
      · rcases hc : fetchJson (API_BASE ++ "/proposal_list") ups.props with m | z
        · simp [dataHandler, if_neg hm, promiseAll3, ha, hb, hc] at h
        · exact ⟨x, y, z, rfl, rfl, rfl, by
            simp [dataHandler, if_neg hm, promiseAll3, ha, hb, hc]⟩

/-- Witness for agg_success: three succeeding upstreams produce the
full 200 payload. -/
theorem agg_success_witness :
    dataHandler "GET"
        ⟨TextOutcome.resp true "OK" "a,b,c", JsonOutcome.resp true "OK" Json.null,
         JsonOutcome.resp true "OK" (Json.arr [])⟩ =
      { headers := corsHeaders, status := 200,
        body := some (Json.obj
          [("spoDataCsv", Json.str "a,b,c"),
           ("drepData", Json.null),
           ("proposalList", Json.arr [])]) } :=
  (agg_success "GET"
    ⟨TextOutcome.resp true "OK" "a,b,c", JsonOutcome.resp true "OK" Json.null,
     JsonOutcome.resp true "OK" (Json.arr [])⟩ (by decide)).1
    "a,b,c" Json.null (Json.arr []) rfl rfl rfl

/-- C10: on every non-OPTIONS invocation in which exactly one upstream
fetch fails, with a non-success HTTP status, the 500 response exposes
the failing upstream in the details field: details is the string
Failed to fetch, the URL of the failing upstream, a colon and the
status text. -/
theorem agg_single_failure_details (method : String) (ups : AggUpstreams)
    (hm : method ≠ "OPTIONS") :
    (∀ st b y z, ups.spo = TextOutcome.resp false st b →
        fetchJson DREP_DATA_URL ups.drep = Except.ok y →
        fetchJson (API_BASE ++ "/proposal_list") ups.props = Except.ok z →
        dataHandler method ups =
          { headers := corsHeaders, status := 500,
            body := some (Json.obj
              [("error", Json.str "Failed to fetch initial data."),
               ("details",
                Json.str ("Failed to fetch " ++ SPO_DATA_URL ++ ": " ++ st))]) })
    ∧ (∀ st b x z, fetchText SPO_DATA_URL ups.spo = Except.ok x →
        ups.drep = JsonOutcome.resp false st b →
        fetchJson (API_BASE ++ "/proposal_list") ups.props = Except.ok z →
        dataHandler method ups =
          { headers := corsHeaders, status := 500,
            body := some (Json.obj
              [("error", Json.str "Failed to fetch initial data."),
               ("details",
                Json.str ("Failed to fetch " ++ DREP_DATA_URL ++ ": " ++ st))]) })
    ∧ (∀ st b x y, fetchText SPO_DATA_URL ups.spo = Except.ok x →
        fetchJson DREP_DATA_URL ups.drep = Except.ok y →
        ups.props = JsonOutcome.resp false st b →
        dataHandler method ups =
          { headers := corsHeaders, status := 500,
            body := some (Json.obj
              [("error", Json.str "Failed to fetch initial data."),
               ("details",
                Json.str ("Failed to fetch " ++ (API_BASE ++ "/proposal_list")
                  ++ ": " ++ st))]) }) := by
  refine ⟨?_, ?_, ?_⟩
  · intro st b y z hspo hy hz
    simp only [dataHandler, if_neg hm, hspo, hy, hz]
    simp [fetchText, promiseAll3]
  · intro st b x z hx hdrep hz
    simp only [dataHandler, if_neg hm, hx, hdrep, hz]
    simp [fetchJson, promiseAll3]
  · intro st b x y hx hy hprops
    simp only [dataHandler, if_neg hm, hx, hy, hprops]
    simp [fetchJson, promiseAll3]

/-- Witness for agg_single_failure_details: the CSV upstream answers
404 Not Found, the other two succeed. -/
theorem agg_single_failure_details_witness :
    dataHandler "GET"
        ⟨TextOutcome.resp false "Not Found" "", JsonOutcome.resp true "OK" Json.null,
         JsonOutcome.resp true "OK" Json.null⟩ =
      { headers := corsHeaders, status := 500,
        body := some (Json.obj
          [("error", Json.str "Failed to fetch initial data."),
           ("details",
            Json.str ("Failed to fetch " ++ SPO_DATA_URL ++ ": " ++ "Not Found"))]) } :=
  (agg_single_failure_details "GET"
    ⟨TextOutcome.resp false "Not Found" "", JsonOutcome.resp true "OK" Json.null,
     JsonOutcome.resp true "OK" Json.null⟩ (by decide)).1
    "Not Found" "" Json.null Json.null rfl rfl rfl
